import Mathlib

/-!
# Verification of `code/photometry.py` (forced-photometry pipeline)

Shallow embedding of the photometry module. Modelling conventions:

* Python floats are modelled as exact rationals (`ℚ`); every float literal in
  the source (`1e-3`, `3.0`, …) is a decimal and is represented exactly.
  The float `NaN` is modelled by `Option`: `none` is NaN, `some x` a number.
* A value that may be `None`, a NaN scalar (`np.nan`) or a numpy vector
  (the `flux_var` flowing out of `run_tractor`) is the inductive `FluxVar`.
* A Python exception is `Except.error msg`; fallible operations (list
  subscripting, `list.index`) return `Except String _`.
* External collaborators — `astropy.io.fits.open`, `astropy.wcs.WCS`,
  `extract_cutout` (a sibling module of the repository), and the tractor
  optimizer's `Tractor.optimize` — are parameters (oracles) of the embedded
  functions; the embedding quantifies over their behaviour.
* Two functions perform calls that the specification counts
  (`make_cutouts` calls `extract_cutout`; `run_tractor` calls
  `tractor.optimize`), so their embeddings additionally return the list /
  count of the calls performed, threaded through the identical control flow.
* `np.sqrt` of a negative number is NaN (with a runtime warning), hence
  `npSqrt : ℚ → Option ℝ`.
-/

/-- A tractor source as consumed by `interpret_tractor_results`: the code only
uses `getParamNames()` (a list of parameter-name strings) and `getParams()`
(the parameter-value vector, same indexing). -/
structure TSource where
  paramNames : List String
  params : List ℚ
deriving Repr, DecidableEq

/-- `src.getParamNames()` of the tractor source interface. -/
def TSource.getParamNames (s : TSource) : List String := s.paramNames

/-- `src.getParams()` of the tractor source interface. -/
def TSource.getParams (s : TSource) : List ℚ := s.params

/-- The value bound to `flux_var`: `None` (tractor reported no variance), the
scalar `np.nan` (assigned by the exception handler of `run_tractor`), or a
numpy vector of variances. -/
inductive FluxVar where
  | pynone : FluxVar
  | nanScalar : FluxVar
  | vec : List ℚ → FluxVar
deriving Repr, DecidableEq

/-- Python list subscripting `l[i]` with a nonnegative index:
`IndexError` when out of range. -/
def pyIndexNat {α : Type} (l : List α) (i : ℕ) : Except String α :=
  if h : i < l.length then Except.ok (l.get ⟨i, h⟩)
  else Except.error "IndexError: list index out of range"

/-- Python / numpy subscripting `l[i]` with a possibly negative index:
a negative index wraps around once (`l[-1]` is the last element), and
anything still out of range raises `IndexError`. -/
def pyIndexInt (l : List ℚ) (i : ℤ) : Except String ℚ :=
  let j : ℤ := if i < 0 then i + l.length else i
  if h : 0 ≤ j ∧ j < l.length then
    Except.ok (l.get ⟨j.toNat, by
      rcases h with ⟨h0, hlt⟩
      exact (Int.toNat_lt h0).mpr hlt⟩)
  else Except.error "IndexError: index out of range"

/-- Python `list.index(x)`: position of the first occurrence, `ValueError`
when absent. -/
def pyListIndex (l : List String) (x : String) : Except String ℕ :=
  match l.indexOf? x with
  | some i => Except.ok i
  | none => Except.error "ValueError: x not in list"

/-- Subscripting the `flux_var` value itself (`flux_var[fv]` in the source's
else-branch): a vector indexes, the `np.nan` scalar raises `TypeError`
(floats are not subscriptable). `None` never reaches this operation because
the `elif flux_var is None` branch catches it first. -/
def FluxVar.subscript : FluxVar → ℤ → Except String ℚ
  | FluxVar.vec v, i => pyIndexInt v i
  | FluxVar.nanScalar, _ =>
      Except.error "TypeError: float object is not subscriptable"
  | FluxVar.pynone, _ =>
      Except.error "TypeError: NoneType object is not subscriptable"

/-- `np.sqrt`: real square root of a nonnegative number, NaN (`none`) of a
negative one. -/
noncomputable def npSqrt (x : ℚ) : Option ℝ :=
  if 0 ≤ x then some (Real.sqrt (x : ℝ)) else none

/-- `interpret_tractor_results(flux_var, flux_conv, fit_fail, objsrc,
nconfsrcs)`.  Output: a pair (flux, uncertainty) in microjanskies, where
`none` is NaN; the result is wrapped in `Except` because the parameter
lookups and the variance subscript can raise.  The uncertainty component
lives in `ℝ` because it is produced by `np.sqrt`.

`nconfsrcs` is a Python int, kept as `ℤ`.  Per the source, the flux is read
from `objsrc[0]` — the source list position that holds the target source
under the repository's `find_nconfsources` convention. -/
noncomputable def interpret_tractor_results (flux_var : FluxVar) (flux_conv : ℚ)
    (fit_fail : Bool) (objsrc : List TSource) (nconfsrcs : ℤ) :
    Except String (Option ℚ × Option ℝ) :=
  if fit_fail then
    -- tractor fit failed: flux and uncertainty are NaN
    Except.ok (none, none)
  else
    match flux_var with
    | FluxVar.pynone => do
        -- fit worked, but flux variance did not get reported
        let src ← pyIndexNat objsrc 0
        let bindex ← pyListIndex src.getParamNames "brightness.Flux"
        let flux ← pyIndexNat src.getParams bindex
        let microJy_flux := flux * flux_conv
        Except.ok (some microJy_flux, none)
    | fvv => do
        -- fit and variance worked
        let src ← pyIndexNat objsrc 0
        let bindex ← pyListIndex src.getParamNames "brightness.Flux"
        let flux ← pyIndexNat src.getParams bindex
        -- flux-variance slot: assumes positions and flux are being fit
        let fv : ℤ := ((nconfsrcs + 1) * 3) - 1
        let varEntry ← fvv.subscript fv
        let tractor_std := npSqrt varEntry
        let microJy_flux := flux * flux_conv
        let microJy_unc := tractor_std.map (fun s => s * (flux_conv : ℝ))
        Except.ok (some microJy_flux, microJy_unc)

/-! ## `make_cutouts` -/

/-- Result tuple of the repository's `extract_cutout` collaborator:
`(subimage, nodata_param, x1, y1, subimage_wcs)`. -/
structure ExtractResult (Img W : Type) where
  subimage : Img
  nodata : Bool
  x1 : ℤ
  y1 : ℤ
  wcs : W
deriving Repr, DecidableEq

/-- Successful return tuple of `make_cutouts`:
`(subimage, x1, y1, subimage_wcs, bgsubimage)`. -/
structure CutoutsResult (Img W : Type) where
  subimage : Img
  x1 : ℤ
  y1 : ℤ
  wcs : W
  bgsubimage : Img
deriving Repr, DecidableEq

/-- `make_cutouts(ra, dec, infiles, cutout_width, mosaic_pix_scale)`.

External collaborators are oracle parameters: `fitsOpen p` models
`fits.open(p)[0]` (primary HDU of a FITS file), `wcsOf` models
`astropy.wcs.WCS(hdulist)`, and `extract` models the sibling module's
`extract_cutout(ra, dec, cutout_width, mosaic_pix_scale, hdulist, wcs)`.
A raised `CutoutError` is `Except.error`.  The second component of the
result counts the `extract_cutout` invocations performed, threaded through
the identical control flow. -/
def make_cutouts {Hdu Img W : Type}
    (fitsOpen : String → Hdu) (wcsOf : Hdu → W)
    (extract : ℚ → ℚ → ℕ → ℚ → Hdu → W → ExtractResult Img W)
    (ra dec : ℚ) (infiles : String × String)
    (cutout_width : ℕ) (mosaic_pix_scale : ℚ) :
    Except String (CutoutsResult Img W) × ℕ :=
  let imgfile := infiles.1
  let skybgfile := infiles.2
  -- extract science image cutout
  let hdulist := fitsOpen imgfile
  let wcs_info := wcsOf hdulist
  let r := extract ra dec cutout_width mosaic_pix_scale hdulist wcs_info
  -- if cutout extraction failed, raise an error
  if r.nodata = true then
    (Except.error "CutoutError: Cutout could not be extracted", 1)
  -- if input is same as above, don't redo the cutout, just return
  else if skybgfile = imgfile then
    (Except.ok ⟨r.subimage, r.x1, r.y1, r.wcs, r.subimage⟩, 1)
  else
    -- else continue with the extraction; note the science `wcs_info` is passed
    let bkg_hdulist := fitsOpen skybgfile
    let rb := extract ra dec cutout_width mosaic_pix_scale bkg_hdulist wcs_info
    -- if cutout extraction failed, raise an error
    if rb.nodata = true then
      (Except.error "CutoutError: Cutout could not be extracted", 2)
    else
      (Except.ok ⟨r.subimage, r.x1, r.y1, r.wcs, rb.subimage⟩, 2)

/-! ## `run_tractor` -/

/-- One call made to `tractor.optimize`: the loop index `tr` at which it was
made and the value of its `variance` keyword argument. -/
structure OptCall where
  step : ℕ
  variance : Bool
deriving Repr, DecidableEq

/-- Behaviour of the external optimizer: calling `tractor.optimize` at loop
index `tr` with a `variance` flag either raises (`Except.error`) or returns
the tuple `(dlnp, X, alpha, flux_var)`, of which the source uses `dlnp` and
`flux_var`. -/
def OptOracle : Type := ℕ → Bool → Except Unit (ℚ × FluxVar)

/-- The `for tr in range(20)` loop of `run_tractor`, with `remaining` the
number of iterations left and `last` the value currently bound to `flux_var`
(`none` while still unbound).  Returns the `flux_var` binding at loop exit
(or the raised exception) together with the list of `tractor.optimize` calls
performed.  Each call passes `variance=True`, exactly as the source's
`tractor.optimize(variance=True)`. -/
def optLoop (opt : OptOracle) : ℕ → ℕ → Option FluxVar →
    Except Unit (Option FluxVar) × List OptCall
  | _, 0, last => (Except.ok last, [])
  | tr, remaining + 1, _ =>
      match opt tr true with
      | Except.error e => (Except.error e, [⟨tr, true⟩])
      | Except.ok (dlnp, fvar) =>
          if dlnp < 1 / 1000 then
            (Except.ok (some fvar), [⟨tr, true⟩])
          else
            let rest := optLoop opt (tr + 1) remaining (some fvar)
            (rest.1, ⟨tr, true⟩ :: rest.2)

/-- `run_tractor`, from the `try:` statement on (the construction of the
tractor `Image` and the parameter freezing before it configure the external
optimizer and are absorbed into the oracle `opt`).  Any exception raised by
the optimization steps is caught: `fit_fail` becomes `True` and `flux_var`
the scalar `np.nan`.  The final `return flux_var, fit_fail` would raise an
uncaught `NameError` if `flux_var` were still unbound; that outcome is the
`Except.error` of the outer `Except` (and is unreachable, because the loop
always performs at least one iteration).  The second component is the list
of `tractor.optimize` calls performed. -/
def run_tractor (opt : OptOracle) :
    Except String (FluxVar × Bool) × List OptCall :=
  let r := optLoop opt 0 20 none
  (match r.1 with
   | Except.error _ => Except.ok (FluxVar.nanScalar, true)
   | Except.ok none =>
       Except.error "NameError: flux_var referenced before assignment"
   | Except.ok (some fvar) => Except.ok (fvar, false),
   r.2)

/-! ## Helper lemmas -/

lemma real_sqrt_four : Real.sqrt 4 = 2 := by
  rw [show (4 : ℝ) = 2 ^ 2 by norm_num, Real.sqrt_sq (by norm_num : (0:ℝ) ≤ 2)]

/-- Unfolding of the variance branch of `interpret_tractor_results` once the
three parameter lookups are known to succeed. -/
lemma interpret_vec_unfold (v : List ℚ) (conv : ℚ) (s : TSource)
    (rest : List TSource) (n : ℤ) (b : ℕ) (flux : ℚ)
    (hb : pyListIndex s.getParamNames "brightness.Flux" = Except.ok b)
    (hflux : pyIndexNat s.getParams b = Except.ok flux) :
    interpret_tractor_results (FluxVar.vec v) conv false (s :: rest) n =
      match pyIndexInt v (((n + 1) * 3) - 1) with
      | Except.error e => Except.error e
      | Except.ok varEntry =>
          Except.ok (some (flux * conv),
            (npSqrt varEntry).map (fun t => t * (conv : ℝ))) := by
  have h0 : pyIndexNat (s :: rest) 0 = Except.ok s := by simp [pyIndexNat]
  simp only [interpret_tractor_results, h0, hb, hflux, FluxVar.subscript,
    Bool.false_eq_true, if_false, Bind.bind, Except.bind]
  cases pyIndexInt v (((n + 1) * 3) - 1) <;> rfl

/-! ## Claims about `interpret_tractor_results` -/

/-- C1: with `fit_fail = False` and a non-`None` variance vector, the result is
`(flux * flux_conv, sqrt(variance[((nconfsrcs + 1) * 3) - 1]) * flux_conv)`,
where `flux` is read from the target source's parameter vector (list position
0) by the name `brightness.Flux`. -/
theorem interpret_variance_ok (v : List ℚ) (flux_conv : ℚ) (s : TSource)
    (rest : List TSource) (nconfsrcs : ℤ) (b : ℕ) (flux varEntry : ℚ)
    (hb : pyListIndex s.getParamNames "brightness.Flux" = Except.ok b)
    (hflux : pyIndexNat s.getParams b = Except.ok flux)
    (hvar : pyIndexInt v (((nconfsrcs + 1) * 3) - 1) = Except.ok varEntry)
    (hnn : 0 ≤ varEntry) :
    interpret_tractor_results (FluxVar.vec v) flux_conv false (s :: rest)
      nconfsrcs
      = Except.ok (some (flux * flux_conv),
          some (Real.sqrt (varEntry : ℝ) * (flux_conv : ℝ))) := by
  rw [interpret_vec_unfold v flux_conv s rest nconfsrcs b flux hb hflux, hvar]
  simp [npSqrt, hnn]

/-- Witness for C1: the spec's concrete instance — `nconfsrcs = 1`,
`flux_conv = 1.0`, flux parameter `5.0`, variance entry `4.0` at index
`((1 + 1) * 3) - 1 = 5` — yields `(5.0, 2.0)`. -/
theorem interpret_variance_ok_witness :
    interpret_tractor_results (FluxVar.vec [0, 0, 0, 0, 0, 4]) 1 false
      [⟨["pos.x", "pos.y", "brightness.Flux"], [10, 12, 5]⟩] 1
      = Except.ok (some 5, some 2) := by
  have h := interpret_variance_ok [0, 0, 0, 0, 0, 4] 1
      ⟨["pos.x", "pos.y", "brightness.Flux"], [10, 12, 5]⟩ [] 1 2 5 4
      rfl rfl rfl (by norm_num)
  rw [h]
  norm_num [real_sqrt_four]

/-- C2: with `fit_fail = True` the result is `(NaN, NaN)` for every
combination of the other arguments — in particular it is independent of the
source list, so no parameter of any source is read. -/
theorem interpret_fit_fail_nan (flux_var : FluxVar) (flux_conv : ℚ)
    (objsrc : List TSource) (nconfsrcs : ℤ) :
    interpret_tractor_results flux_var flux_conv true objsrc nconfsrcs
      = Except.ok (none, none) := rfl

/-- C3: with `fit_fail = False` and `variance = None`, the result is
`(flux * flux_conv, NaN)` with `flux` read from the target source's
parameter vector (list position 0) by the name `brightness.Flux`. -/
theorem interpret_no_variance_ok (flux_conv : ℚ) (s : TSource)
    (rest : List TSource) (nconfsrcs : ℤ) (b : ℕ) (flux : ℚ)
    (hb : pyListIndex s.getParamNames "brightness.Flux" = Except.ok b)
    (hflux : pyIndexNat s.getParams b = Except.ok flux) :
    interpret_tractor_results FluxVar.pynone flux_conv false (s :: rest)
      nconfsrcs
      = Except.ok (some (flux * flux_conv), none) := by
  have h0 : pyIndexNat (s :: rest) 0 = Except.ok s := by simp [pyIndexNat]
  simp only [interpret_tractor_results, Bool.false_eq_true, if_false, h0, hb,
    hflux, Bind.bind, Except.bind]

/-- Witness for C3: the spec's concrete instance — `flux_conv = 2.0` and a
fitted flux of `10.0` — yields `(20.0, NaN)`. -/
theorem interpret_no_variance_ok_witness :
    interpret_tractor_results FluxVar.pynone 2 false
      [⟨["pos.x", "pos.y", "brightness.Flux"], [3, 4, 10]⟩] 0
      = Except.ok (some 20, none) := by
  have h := interpret_no_variance_ok 2
      ⟨["pos.x", "pos.y", "brightness.Flux"], [3, 4, 10]⟩ [] 0 2 10
      rfl rfl
  rw [h]
  norm_num

lemma pyIndexInt_pos_ok (l : List ℚ) (i : ℤ) (h0 : 0 ≤ i)
    (hlt : i < (l.length : ℤ)) :
    pyIndexInt l i = Except.ok (l.get ⟨i.toNat, (Int.toNat_lt h0).mpr hlt⟩) := by
  unfold pyIndexInt
  simp only [if_neg (not_lt.mpr h0)]
  rw [dif_pos ⟨h0, hlt⟩]

lemma pyIndexInt_oob (l : List ℚ) (i : ℤ) (h0 : 0 ≤ i)
    (hge : (l.length : ℤ) ≤ i) :
    pyIndexInt l i = Except.error "IndexError: index out of range" := by
  unfold pyIndexInt
  simp only [if_neg (not_lt.mpr h0)]
  rw [dif_neg]
  rintro ⟨-, hlt⟩
  exact absurd hlt (not_lt.mpr hge)

/-- C10: the variance lookup `flux_var[((nconfsrcs + 1) * 3) - 1]` carries no
bounds or type guard.  (1) Under the precondition `0 ≤ nconfsrcs` and
`3 * (nconfsrcs + 1) ≤ length of the variance vector`, the lookup is in
bounds and the call returns a value (the out-of-bounds error branch is
unreachable).  (2) A scalar (non-subscriptable) variance makes the call
raise `TypeError` rather than return a sentinel.  (3) A too-short variance
vector makes the call raise `IndexError` rather than return a sentinel. -/
theorem interpret_variance_index_guard :
    (∀ (v : List ℚ) (conv : ℚ) (s : TSource) (rest : List TSource)
        (n : ℤ) (b : ℕ) (flux : ℚ),
        pyListIndex s.getParamNames "brightness.Flux" = Except.ok b →
        pyIndexNat s.getParams b = Except.ok flux →
        0 ≤ n → 3 * (n + 1) ≤ (v.length : ℤ) →
        ∃ p, interpret_tractor_results (FluxVar.vec v) conv false (s :: rest) n
            = Except.ok p) ∧
    (∀ (conv : ℚ) (s : TSource) (rest : List TSource) (n : ℤ) (b : ℕ)
        (flux : ℚ),
        pyListIndex s.getParamNames "brightness.Flux" = Except.ok b →
        pyIndexNat s.getParams b = Except.ok flux →
        interpret_tractor_results FluxVar.nanScalar conv false (s :: rest) n
          = Except.error "TypeError: float object is not subscriptable") ∧
    (∀ (v : List ℚ) (conv : ℚ) (s : TSource) (rest : List TSource)
        (n : ℤ) (b : ℕ) (flux : ℚ),
        pyListIndex s.getParamNames "brightness.Flux" = Except.ok b →
        pyIndexNat s.getParams b = Except.ok flux →
        0 ≤ n → (v.length : ℤ) ≤ ((n + 1) * 3) - 1 →
        interpret_tractor_results (FluxVar.vec v) conv false (s :: rest) n
          = Except.error "IndexError: index out of range") := by
  refine ⟨?_, ?_, ?_⟩
  · intro v conv s rest n b flux hb hflux hn hlen
    rw [interpret_vec_unfold v conv s rest n b flux hb hflux,
      pyIndexInt_pos_ok v (((n + 1) * 3) - 1) (by linarith) (by linarith)]
    exact ⟨_, rfl⟩
  · intro conv s rest n b flux hb hflux
    have h0 : pyIndexNat (s :: rest) 0 = Except.ok s := by simp [pyIndexNat]
    simp only [interpret_tractor_results, Bool.false_eq_true, if_false, h0, hb,
      hflux, FluxVar.subscript, Bind.bind, Except.bind]
  · intro v conv s rest n b flux hb hflux hn hlen
    rw [interpret_vec_unfold v conv s rest n b flux hb hflux,
      pyIndexInt_oob v (((n + 1) * 3) - 1) (by linarith) hlen]

/-- Witness for C10: with a well-formed target source, (1) `nconfsrcs = 0`
and a length-3 variance vector return a value, (2) the `np.nan` scalar
raises `TypeError`, (3) a length-2 variance vector raises `IndexError`. -/
theorem interpret_variance_index_guard_witness :
    (∃ p, interpret_tractor_results (FluxVar.vec [0, 0, 4]) 1 false
        [⟨["pos.x", "pos.y", "brightness.Flux"], [1, 2, 3]⟩] 0
        = Except.ok p) ∧
    interpret_tractor_results FluxVar.nanScalar 1 false
        [⟨["pos.x", "pos.y", "brightness.Flux"], [1, 2, 3]⟩] 0
      = Except.error "TypeError: float object is not subscriptable" ∧
    interpret_tractor_results (FluxVar.vec [0, 0]) 1 false
        [⟨["pos.x", "pos.y", "brightness.Flux"], [1, 2, 3]⟩] 0
      = Except.error "IndexError: index out of range" :=
  ⟨interpret_variance_index_guard.1 [0, 0, 4] 1
      ⟨["pos.x", "pos.y", "brightness.Flux"], [1, 2, 3]⟩ [] 0 2 3 rfl rfl
      (by norm_num) (by norm_num),
    interpret_variance_index_guard.2.1 1
      ⟨["pos.x", "pos.y", "brightness.Flux"], [1, 2, 3]⟩ [] 0 2 3 rfl rfl,
    interpret_variance_index_guard.2.2 [0, 0] 1
      ⟨["pos.x", "pos.y", "brightness.Flux"], [1, 2, 3]⟩ [] 0 2 3 rfl rfl
      (by norm_num) (by norm_num)⟩

/-! ## Lemmas about the optimization loop -/

lemma optLoop_succ (opt : OptOracle) (tr n : ℕ) (last : Option FluxVar) :
    optLoop opt tr (n + 1) last =
      match opt tr true with
      | Except.error e => (Except.error e, [⟨tr, true⟩])
      | Except.ok (dlnp, fvar) =>
          if dlnp < 1 / 1000 then
            (Except.ok (some fvar), [⟨tr, true⟩])
          else
            let rest := optLoop opt (tr + 1) n (some fvar)
            (rest.1, ⟨tr, true⟩ :: rest.2) := rfl

lemma optLoop_length_le (opt : OptOracle) (fuel : ℕ) :
    ∀ (tr : ℕ) (last : Option FluxVar),
      (optLoop opt tr fuel last).2.length ≤ fuel := by
  induction fuel with
  | zero => intro tr last; simp [optLoop]
  | succ n ih =>
      intro tr last
      rw [optLoop_succ]
      cases h : opt tr true with
      | error e => simp
      | ok p =>
          obtain ⟨d, fv⟩ := p
          dsimp only
          by_cases hd : d < 1 / 1000
          · rw [if_pos hd]; simp
          · rw [if_neg hd]
            simp only [List.length_cons]
            exact Nat.succ_le_succ (ih (tr + 1) (some fv))

lemma optLoop_ne_ok_none_of_some (opt : OptOracle) (fuel : ℕ) :
    ∀ (tr : ℕ) (fv0 : FluxVar),
      (optLoop opt tr fuel (some fv0)).1 ≠ Except.ok none := by
  induction fuel with
  | zero => intro tr fv0 h; simp [optLoop] at h
  | succ n ih =>
      intro tr fv0
      rw [optLoop_succ]
      cases h : opt tr true with
      | error e => simp
      | ok p =>
          obtain ⟨d, fv⟩ := p
          dsimp only
          by_cases hd : d < 1 / 1000
          · rw [if_pos hd]; simp
          · rw [if_neg hd]
            simpa using ih (tr + 1) fv

lemma optLoop20_ne_ok_none (opt : OptOracle) :
    (optLoop opt 0 20 none).1 ≠ Except.ok none := by
  rw [show (20 : ℕ) = 19 + 1 from rfl, optLoop_succ]
  cases h : opt 0 true with
  | error e => simp
  | ok p =>
      obtain ⟨d, fv⟩ := p
      dsimp only
      by_cases hd : d < 1 / 1000
      · rw [if_pos hd]; simp
      · rw [if_neg hd]
        simpa using optLoop_ne_ok_none_of_some opt 19 1 fv

lemma optLoop_no_conv_some (opt : OptOracle) (fuel : ℕ) :
    ∀ (tr : ℕ) (fv0 : FluxVar),
      (∀ k, k < fuel →
        ∃ d fv, opt (tr + k) true = Except.ok (d, fv) ∧ ¬ d < 1 / 1000) →
      ∃ fv, (optLoop opt tr fuel (some fv0)).1 = Except.ok (some fv) := by
  induction fuel with
  | zero => intro tr fv0 _; exact ⟨fv0, by simp [optLoop]⟩
  | succ n ih =>
      intro tr fv0 hsteps
      obtain ⟨d, fv, hstep, hd⟩ := hsteps 0 (Nat.succ_pos n)
      rw [Nat.add_zero] at hstep
      rw [optLoop_succ]
      simp only [hstep]
      rw [if_neg hd]
      simpa using ih (tr + 1) fv (fun k hk => by
        have h := hsteps (k + 1) (Nat.succ_lt_succ hk)
        rwa [show tr + (k + 1) = tr + 1 + k by omega] at h)

lemma optLoop_calls_variance (opt : OptOracle) (fuel : ℕ) :
    ∀ (tr : ℕ) (last : Option FluxVar) (c : OptCall),
      c ∈ (optLoop opt tr fuel last).2 → c.variance = true := by
  induction fuel with
  | zero => intro tr last c hc; simp [optLoop] at hc
  | succ n ih =>
      intro tr last c hc
      rw [optLoop_succ] at hc
      cases h : opt tr true with
      | error e =>
          rw [h] at hc
          simp at hc
          rw [hc]
      | ok p =>
          obtain ⟨d, fv⟩ := p
          rw [h] at hc
          dsimp only at hc
          by_cases hd : d < 1 / 1000
          · rw [if_pos hd] at hc
            simp at hc
            rw [hc]
          · rw [if_neg hd] at hc
            simp only [List.mem_cons] at hc
            cases hc with
            | inl hc => rw [hc]
            | inr hc => exact ih (tr + 1) (some fv) c hc

/-! ## Claims about `run_tractor` -/

/-- C4: `run_tractor` never lets an exception of the optimization steps
propagate: for every optimizer behaviour the caller receives a well-formed
`(flux_var, fit_fail)` pair, and whenever the optimization loop raises, the
call returns normally with `fit_fail = True` and the NaN scalar as the
variance. -/
theorem run_tractor_catches_exceptions (opt : OptOracle) :
    (∃ p, (run_tractor opt).1 = Except.ok p) ∧
    (∀ e, (optLoop opt 0 20 none).1 = Except.error e →
      (run_tractor opt).1 = Except.ok (FluxVar.nanScalar, true)) := by
  constructor
  · have hne := optLoop20_ne_ok_none opt
    cases hr : (optLoop opt 0 20 none).1 with
    | error e => exact ⟨(FluxVar.nanScalar, true), by simp [run_tractor, hr]⟩
    | ok o =>
        cases o with
        | none => exact absurd hr hne
        | some fv => exact ⟨(fv, false), by simp [run_tractor, hr]⟩
  · intro e he
    simp [run_tractor, he]

/-- Witness for C4: an optimizer that raises on its first step makes
`run_tractor` return `(np.nan, True)` normally. -/
theorem run_tractor_catches_exceptions_witness :
    (run_tractor (fun _ _ => Except.error ())).1
      = Except.ok (FluxVar.nanScalar, true) :=
  (run_tractor_catches_exceptions (fun _ _ => Except.error ())).2 () rfl

/-- C5: the optimization loop performs at most 20 steps; a first step that
already reports `dlnp < 1e-3` makes it perform exactly one step; and
exhausting all 20 steps without meeting the criterion still terminates with
`fit_fail = False`. -/
theorem run_tractor_step_bounds :
    (∀ opt : OptOracle, (run_tractor opt).2.length ≤ 20) ∧
    (∀ (opt : OptOracle) (d : ℚ) (fv : FluxVar),
        opt 0 true = Except.ok (d, fv) → d < 1 / 1000 →
        (run_tractor opt).2 = [⟨0, true⟩]) ∧
    (∀ opt : OptOracle,
        (∀ tr, tr < 20 →
          ∃ d fv, opt tr true = Except.ok (d, fv) ∧ ¬ d < 1 / 1000) →
        ∃ fv, (run_tractor opt).1 = Except.ok (fv, false)) := by
  refine ⟨?_, ?_, ?_⟩
  · intro opt
    have h2 : (run_tractor opt).2 = (optLoop opt 0 20 none).2 := rfl
    rw [h2]
    exact optLoop_length_le opt 20 0 none
  · intro opt d fv hstep hd
    have h2 : (run_tractor opt).2 = (optLoop opt 0 20 none).2 := rfl
    rw [h2, show (20 : ℕ) = 19 + 1 from rfl, optLoop_succ]
    simp only [hstep]
    rw [if_pos hd]
  · intro opt hsteps
    have hloop : ∃ fv, (optLoop opt 0 20 none).1 = Except.ok (some fv) := by
      rw [show (20 : ℕ) = 19 + 1 from rfl, optLoop_succ]
      obtain ⟨d, fv, hstep, hd⟩ := hsteps 0 (by norm_num)
      simp only [hstep]
      rw [if_neg hd]
      simpa using optLoop_no_conv_some opt 19 1 fv (fun k hk => by
        have h := hsteps (k + 1) (by omega)
        rwa [show (1 : ℕ) + k = k + 1 by omega])
    obtain ⟨fv, hfv⟩ := hloop
    exact ⟨fv, by simp [run_tractor, hfv]⟩

/-- Witness for C5: an optimizer converging at step 0 yields exactly one
`optimize` call; one that never converges still yields `fit_fail = False`. -/
theorem run_tractor_step_bounds_witness :
    (run_tractor (fun _ _ => Except.ok ((0 : ℚ), FluxVar.pynone))).2
        = [⟨0, true⟩] ∧
    ∃ fv, (run_tractor (fun _ _ => Except.ok ((1 : ℚ), FluxVar.pynone))).1
        = Except.ok (fv, false) :=
  ⟨run_tractor_step_bounds.2.1 _ 0 FluxVar.pynone rfl (by norm_num),
   run_tractor_step_bounds.2.2 _
     (fun _ _ => ⟨1, FluxVar.pynone, rfl, by norm_num⟩)⟩

/-- The two-step optimizer trace used to refute the only-final-step reading
of the variance request: step 0 reports `dlnp = 1` (no convergence), every
later step reports `dlnp = 0` (convergence). -/
def twoStepOracle : OptOracle :=
  fun tr _ => Except.ok ((if tr = 0 then 1 else 0 : ℚ), FluxVar.pynone)

lemma twoStepOracle_calls :
    (run_tractor twoStepOracle).2 = [⟨0, true⟩, ⟨1, true⟩] := by
  have h2 : (run_tractor twoStepOracle).2
      = (optLoop twoStepOracle 0 20 none).2 := rfl
  rw [h2, show (20 : ℕ) = 19 + 1 from rfl, optLoop_succ]
  have h0 : twoStepOracle 0 true = Except.ok ((1 : ℚ), FluxVar.pynone) := by
    simp [twoStepOracle]
  simp only [h0]
  rw [if_neg (by norm_num : ¬ (1 : ℚ) < 1 / 1000)]
  have h19 : optLoop twoStepOracle (0 + 1) 19 (some FluxVar.pynone)
      = (Except.ok (some FluxVar.pynone), [⟨1, true⟩]) := by
    rw [show (19 : ℕ) = 18 + 1 from rfl, optLoop_succ]
    have h1 : twoStepOracle (0 + 1) true
        = Except.ok ((0 : ℚ), FluxVar.pynone) := by
      simp [twoStepOracle]
    simp only [h1]
    rw [if_pos (by norm_num : (0 : ℚ) < 1 / 1000)]
  simp only [h19]

/-- Counterexample to C8 as stated: on a two-step fit, the first (non-final)
`tractor.optimize` call already carries `variance=True` — it is false that a
call requesting the variance must be the final call of the run. -/
theorem run_tractor_variance_only_final_cex :
    ¬ (∀ c ∈ (run_tractor twoStepOracle).2, c.variance = true →
        (run_tractor twoStepOracle).2.getLast? = some c) := by
  intro h
  have h0 := h ⟨0, true⟩ (by rw [twoStepOracle_calls]; simp) rfl
  rw [twoStepOracle_calls] at h0
  simp [List.getLast?] at h0

/-- C8 (amended): every optimization step requests `dlnp` and the parameter
variance vector — the call `tractor.optimize(variance=True)` is issued with
`variance=True` on every iteration of the loop, not only on the final one. -/
theorem run_tractor_variance_every_step (opt : OptOracle) :
    ((run_tractor opt).2.all fun c => c.variance) = true := by
  rw [List.all_eq_true]
  intro c hc
  exact optLoop_calls_variance opt 20 0 none c hc

/-! ## Claims about `make_cutouts` -/

/-- C6: if the science-cutout extraction, or (when a background extraction
happens at all, i.e. the paths differ) the background-cutout extraction,
reports its no-data flag, `make_cutouts` raises `CutoutError` and returns no
cutout value — the request is aborted before any fitting. -/
theorem make_cutouts_nodata_error {Hdu Img W : Type}
    (fitsOpen : String → Hdu) (wcsOf : Hdu → W)
    (extract : ℚ → ℚ → ℕ → ℚ → Hdu → W → ExtractResult Img W)
    (ra dec : ℚ) (infiles : String × String) (cw : ℕ) (ps : ℚ)
    (h : (extract ra dec cw ps (fitsOpen infiles.1)
            (wcsOf (fitsOpen infiles.1))).nodata = true ∨
         (infiles.2 ≠ infiles.1 ∧
          (extract ra dec cw ps (fitsOpen infiles.2)
            (wcsOf (fitsOpen infiles.1))).nodata = true)) :
    (make_cutouts fitsOpen wcsOf extract ra dec infiles cw ps).1
      = Except.error "CutoutError: Cutout could not be extracted" := by
  unfold make_cutouts
  rcases h with h | ⟨hne, h⟩
  · simp [h]
  · by_cases h1 : (extract ra dec cw ps (fitsOpen infiles.1)
        (wcsOf (fitsOpen infiles.1))).nodata = true
    · simp [h1]
    · simp [h1, hne, h]

/-- Witness for C6: an extractor that always reports no-data makes
`make_cutouts` raise `CutoutError`. -/
theorem make_cutouts_nodata_error_witness :
    (make_cutouts (fun _ => ()) (fun _ => ())
        (fun _ _ _ _ _ _ => (⟨0, true, 0, 0, ()⟩ : ExtractResult ℕ Unit))
        0 0 ("sci.fits", "bkg.fits") 10 1).1
      = Except.error "CutoutError: Cutout could not be extracted" :=
  make_cutouts_nodata_error (fun _ => ()) (fun _ => ())
    (fun _ _ _ _ _ _ => (⟨0, true, 0, 0, ()⟩ : ExtractResult ℕ Unit))
    0 0 ("sci.fits", "bkg.fits") 10 1 (Or.inl rfl)

/-- C7: with `background_path = science_path`, `make_cutouts` performs the
cutout extraction exactly once (call count 1) and returns the identical
extracted value as both the science and the background cutout. -/
theorem make_cutouts_same_file {Hdu Img W : Type}
    (fitsOpen : String → Hdu) (wcsOf : Hdu → W)
    (extract : ℚ → ℚ → ℕ → ℚ → Hdu → W → ExtractResult Img W)
    (ra dec : ℚ) (p : String) (cw : ℕ) (ps : ℚ)
    (hnd : (extract ra dec cw ps (fitsOpen p)
        (wcsOf (fitsOpen p))).nodata = false) :
    make_cutouts fitsOpen wcsOf extract ra dec (p, p) cw ps
      = (Except.ok
          ⟨(extract ra dec cw ps (fitsOpen p) (wcsOf (fitsOpen p))).subimage,
           (extract ra dec cw ps (fitsOpen p) (wcsOf (fitsOpen p))).x1,
           (extract ra dec cw ps (fitsOpen p) (wcsOf (fitsOpen p))).y1,
           (extract ra dec cw ps (fitsOpen p) (wcsOf (fitsOpen p))).wcs,
           (extract ra dec cw ps (fitsOpen p) (wcsOf (fitsOpen p))).subimage⟩,
         1) := by
  unfold make_cutouts
  simp [hnd]

/-- Witness for C7: a successful extractor and an aliased file pair produce
the science cutout twice, with call count 1. -/
theorem make_cutouts_same_file_witness :
    make_cutouts (fun _ => ()) (fun _ => ())
        (fun _ _ _ _ _ _ => (⟨5, false, 3, 4, ()⟩ : ExtractResult ℕ Unit))
        0 0 ("img.fits", "img.fits") 10 1
      = (Except.ok ⟨5, 3, 4, (), 5⟩, 1) :=
  make_cutouts_same_file (fun _ => ()) (fun _ => ())
    (fun _ _ _ _ _ _ => (⟨5, false, 3, 4, ()⟩ : ExtractResult ℕ Unit))
    0 0 "img.fits" 10 1 rfl

/-- C9: with distinct science and background paths (and both extractions
succeeding), the background cutout is extracted with the science image's WCS
(`wcsOf` applied to the science HDU, never to the background HDU), and the
returned offsets and local WCS are the science extraction's; the background
extraction's own offsets and WCS are discarded. -/
theorem make_cutouts_distinct_files {Hdu Img W : Type}
    (fitsOpen : String → Hdu) (wcsOf : Hdu → W)
    (extract : ℚ → ℚ → ℕ → ℚ → Hdu → W → ExtractResult Img W)
    (ra dec : ℚ) (infiles : String × String) (cw : ℕ) (ps : ℚ)
    (hne : infiles.2 ≠ infiles.1)
    (hnd1 : (extract ra dec cw ps (fitsOpen infiles.1)
        (wcsOf (fitsOpen infiles.1))).nodata = false)
    (hnd2 : (extract ra dec cw ps (fitsOpen infiles.2)
        (wcsOf (fitsOpen infiles.1))).nodata = false) :
    make_cutouts fitsOpen wcsOf extract ra dec infiles cw ps
      = (Except.ok
          ⟨(extract ra dec cw ps (fitsOpen infiles.1)
              (wcsOf (fitsOpen infiles.1))).subimage,
           (extract ra dec cw ps (fitsOpen infiles.1)
              (wcsOf (fitsOpen infiles.1))).x1,
           (extract ra dec cw ps (fitsOpen infiles.1)
              (wcsOf (fitsOpen infiles.1))).y1,
           (extract ra dec cw ps (fitsOpen infiles.1)
              (wcsOf (fitsOpen infiles.1))).wcs,
           (extract ra dec cw ps (fitsOpen infiles.2)
              (wcsOf (fitsOpen infiles.1))).subimage⟩,
         2) := by
  unfold make_cutouts
  simp [hnd1, hnd2, hne]

/-- Witness for C9: an extractor that records the WCS it was handed shows
the background cutout being extracted against the science WCS, while the
background file's own WCS (`"wcs-bkg.fits"`) appears nowhere in the
result. -/
theorem make_cutouts_distinct_files_witness :
    make_cutouts (fun p => p) (fun h => "wcs-" ++ h)
        (fun _ _ _ _ h w => (⟨h, false, 1, 2, w⟩ : ExtractResult String String))
        0 0 ("sci.fits", "bkg.fits") 10 1
      = (Except.ok ⟨"sci.fits", 1, 2, "wcs-sci.fits", "bkg.fits"⟩, 2) :=
  make_cutouts_distinct_files (fun p => p) (fun h => "wcs-" ++ h)
    (fun _ _ _ _ h w => (⟨h, false, 1, 2, w⟩ : ExtractResult String String))
    0 0 ("sci.fits", "bkg.fits") 10 1 (by decide) rfl rfl
